import Mathlib

/-!
Shallow embedding of `src/ci_scripts/ci_constants.py` from the repository
`dante-signal31/steganer`.

The module is a flat table of named constants, set once when the module is
loaded.  Every constant is a string literal except `GITHUB_TOKEN`, which is
the result of `os.getenv("GITHUB_TOKEN")`: the value of the environment
variable `GITHUB_TOKEN`, or `None` when that variable is unset.

We model a process environment as a partial map from variable names to
values, and module load as a pure function from an environment to the record
of constants the loaded module exposes.
-/

/-- A process environment: a partial map from variable names to values.
`none` means the variable is unset. -/
abbrev Env : Type := String → Option String

/-- Python `os.getenv(name)`: the value of the variable, or `None` when it is
unset.  It never raises. -/
def os_getenv (env : Env) (name : String) : Option String :=
  env name

/-- The record of constants the module `ci_constants` exposes after load.
Field names and order follow the source.  `GITHUB_TOKEN` is optional because
`os.getenv` returns `None` for an unset variable; every other constant is a
string literal. -/
structure CiConstants where
  BRANCH_TO_MERGE_INTO : String
  BRANCH_TO_MERGE : String
  GITHUB_URL : String
  GITHUB_REPO : String
  GITHUB_TOKEN : Option String
  GIT_USERNAME : String
  GIT_EMAIL : String
  STEGANER_CONFIGURATION : String
  VERSION_PREFIX : String
  BINTRAY_TEMPLATES_PATH : String
  BINTRAY_DESCRIPTORS_PATH : String
  BINTRAY_DESCRIPTOR_NAME_FORMAT : String
  deriving DecidableEq, Repr

/-- Loading the module `ci_constants` in a process whose environment is
`env`: each top-level assignment of the source, in order. -/
def ci_constants (env : Env) : CiConstants where
  BRANCH_TO_MERGE_INTO := "master"
  BRANCH_TO_MERGE := "staging"
  GITHUB_URL := "https://github.com/"
  GITHUB_REPO := "dante-signal31/steganer.git"
  GITHUB_TOKEN := os_getenv env "GITHUB_TOKEN"
  GIT_USERNAME := "dante-signal31"
  GIT_EMAIL := "dante.signal31@gmail.com"
  STEGANER_CONFIGURATION := "Cargo.toml"
  VERSION_PREFIX := ""
  BINTRAY_TEMPLATES_PATH := "packaging/bintray_descriptor_templates"
  BINTRAY_DESCRIPTORS_PATH := "packaging/"
  BINTRAY_DESCRIPTOR_NAME_FORMAT := "steganer_{tag}_bintray_descriptor.json"

/-- Loading the module in Python's fallible world: the load either returns
the constants record or raises.  The body mirrors the source statement by
statement; the only call made is `os.getenv`, which never raises, modelled
by `os_getenv_exc` below. -/
def os_getenv_exc (env : Env) (name : String) : Except String (Option String) :=
  Except.ok (os_getenv env name)

/-- The fallible load of the module: every string-literal assignment is pure
and the single call, `os.getenv`, never raises. -/
def load_ci_constants (env : Env) : Except String CiConstants := do
  let token ← os_getenv_exc env "GITHUB_TOKEN"
  return { BRANCH_TO_MERGE_INTO := "master"
           BRANCH_TO_MERGE := "staging"
           GITHUB_URL := "https://github.com/"
           GITHUB_REPO := "dante-signal31/steganer.git"
           GITHUB_TOKEN := token
           GIT_USERNAME := "dante-signal31"
           GIT_EMAIL := "dante.signal31@gmail.com"
           STEGANER_CONFIGURATION := "Cargo.toml"
           VERSION_PREFIX := ""
           BINTRAY_TEMPLATES_PATH := "packaging/bintray_descriptor_templates"
           BINTRAY_DESCRIPTORS_PATH := "packaging/"
           BINTRAY_DESCRIPTOR_NAME_FORMAT := "steganer_{tag}_bintray_descriptor.json" }

/-- The sequence of top-level assignments executed when the module loads:
one (name, value) pair per source statement, in source order.  A literal
assignment binds `some` of the literal; the `GITHUB_TOKEN` assignment binds
whatever `os.getenv` returned. -/
def moduleAssignments (env : Env) : List (String × Option String) :=
  [ ("BRANCH_TO_MERGE_INTO", some "master")
  , ("BRANCH_TO_MERGE", some "staging")
  , ("GITHUB_URL", some "https://github.com/")
  , ("GITHUB_REPO", some "dante-signal31/steganer.git")
  , ("GITHUB_TOKEN", os_getenv env "GITHUB_TOKEN")
  , ("GIT_USERNAME", some "dante-signal31")
  , ("GIT_EMAIL", some "dante.signal31@gmail.com")
  , ("STEGANER_CONFIGURATION", some "Cargo.toml")
  , ("VERSION_PREFIX", some "")
  , ("BINTRAY_TEMPLATES_PATH", some "packaging/bintray_descriptor_templates")
  , ("BINTRAY_DESCRIPTORS_PATH", some "packaging/")
  , ("BINTRAY_DESCRIPTOR_NAME_FORMAT", some "steganer_{tag}_bintray_descriptor.json") ]

/-- Substitution of the replacement field `\x7btag\x7d` in a character list:
every occurrence of the five-character field is replaced by `tag`. -/
def substTagChars (tag : List Char) : List Char → List Char
  | '\x7b' :: 't' :: 'a' :: 'g' :: '\x7d' :: rest => tag ++ substTagChars tag rest
  | c :: rest => c :: substTagChars tag rest
  | [] => []

/-- Python `fmt.format(tag=value)` for a format string whose only
replacement fields are occurrences of `\x7btag\x7d`: every occurrence of
the field is replaced by the value. -/
def pyFormatTag (fmt tag : String) : String :=
  String.mk (substTagChars tag.data fmt.data)

/-- How many `\x7btag\x7d` replacement fields a character list contains. -/
def tagFieldCountChars : List Char → Nat
  | '\x7b' :: 't' :: 'a' :: 'g' :: '\x7d' :: rest => tagFieldCountChars rest + 1
  | _ :: rest => tagFieldCountChars rest
  | [] => 0

/-- How many `\x7btag\x7d` replacement fields a format string contains. -/
def tagFieldCount (fmt : String) : Nat :=
  tagFieldCountChars fmt.data

/-- C1: for every load of the module, the `GITHUB_TOKEN` constant equals the
value of the `GITHUB_TOKEN` environment variable at load time — in
particular `some "abc123"` when the variable is set to `"abc123"` and `none`
(the absent value) when the variable is unset — and the load returns the
constants record without raising, substituting no default and performing no
validation of the value. -/
theorem C1_token_is_env_value (env : Env) :
    (ci_constants env).GITHUB_TOKEN = env "GITHUB_TOKEN"
      ∧ (env "GITHUB_TOKEN" = some "abc123"
          → (ci_constants env).GITHUB_TOKEN = some "abc123")
      ∧ (env "GITHUB_TOKEN" = none → (ci_constants env).GITHUB_TOKEN = none)
      ∧ load_ci_constants env = Except.ok (ci_constants env) := by
  refine ⟨rfl, ?_, ?_, rfl⟩ <;> intro h <;> simp [ci_constants, os_getenv, h]

/-- C1 witness: a concrete environment with the variable set to `"abc123"`
and a concrete environment with the variable unset. -/
theorem C1_token_is_env_value_witness :
    (ci_constants fun _ => some "abc123").GITHUB_TOKEN = some "abc123"
      ∧ (ci_constants fun _ => none).GITHUB_TOKEN = none :=
  ⟨(C1_token_is_env_value fun _ => some "abc123").2.1 rfl,
   (C1_token_is_env_value fun _ => none).2.2.1 rfl⟩

/-- C2: substituting the placeholder of `BINTRAY_DESCRIPTOR_NAME_FORMAT`
with the tag value `"v1.2.3"` yields exactly
`"steganer_v1.2.3_bintray_descriptor.json"`, in every environment. -/
theorem C2_descriptor_name_format (env : Env) :
    pyFormatTag ((ci_constants env).BINTRAY_DESCRIPTOR_NAME_FORMAT) "v1.2.3"
      = "steganer_v1.2.3_bintray_descriptor.json" := rfl

/-- C3: for every load of the module, every named constant other than the
token equals its literal declared value, while `GITHUB_TOKEN` equals the
current environment variable's value (or `none` when the variable is
unset). -/
theorem C3_constants_equal_literals (env : Env) :
    (ci_constants env).BRANCH_TO_MERGE_INTO = "master"
      ∧ (ci_constants env).BRANCH_TO_MERGE = "staging"
      ∧ (ci_constants env).GITHUB_URL = "https://github.com/"
      ∧ (ci_constants env).GITHUB_REPO = "dante-signal31/steganer.git"
      ∧ (ci_constants env).GIT_USERNAME = "dante-signal31"
      ∧ (ci_constants env).GIT_EMAIL = "dante.signal31@gmail.com"
      ∧ (ci_constants env).STEGANER_CONFIGURATION = "Cargo.toml"
      ∧ (ci_constants env).VERSION_PREFIX = ""
      ∧ (ci_constants env).BINTRAY_TEMPLATES_PATH
          = "packaging/bintray_descriptor_templates"
      ∧ (ci_constants env).BINTRAY_DESCRIPTORS_PATH = "packaging/"
      ∧ (ci_constants env).BINTRAY_DESCRIPTOR_NAME_FORMAT
          = "steganer_{tag}_bintray_descriptor.json"
      ∧ (ci_constants env).GITHUB_TOKEN = env "GITHUB_TOKEN" :=
  ⟨rfl, rfl, rfl, rfl, rfl, rfl, rfl, rfl, rfl, rfl, rfl, rfl⟩

/-- C4: the module defines the two filesystem path template constants and
the filename-format constant used for generating descriptor files, and the
filename-format string contains exactly one `\x7btag\x7d` substitution
placeholder, to be substituted by a caller. -/
theorem C4_templates_and_placeholder (env : Env) :
    (ci_constants env).BINTRAY_TEMPLATES_PATH
        = "packaging/bintray_descriptor_templates"
      ∧ (ci_constants env).BINTRAY_DESCRIPTORS_PATH = "packaging/"
      ∧ tagFieldCount ((ci_constants env).BINTRAY_DESCRIPTOR_NAME_FORMAT) = 1 :=
  ⟨rfl, rfl, rfl⟩

/-- C5: loading the module reads the environment only at the single
variable `GITHUB_TOKEN` and writes nothing: the whole constants record is a
function of that one value alone, so any two loads under environments that
agree on that variable produce identical constants. -/
theorem C5_single_env_read_noninterference :
    ∃ f : Option String → CiConstants,
      ∀ env : Env, ci_constants env = f (env "GITHUB_TOKEN") :=
  ⟨fun t =>
    { BRANCH_TO_MERGE_INTO := "master"
      BRANCH_TO_MERGE := "staging"
      GITHUB_URL := "https://github.com/"
      GITHUB_REPO := "dante-signal31/steganer.git"
      GITHUB_TOKEN := t
      GIT_USERNAME := "dante-signal31"
      GIT_EMAIL := "dante.signal31@gmail.com"
      STEGANER_CONFIGURATION := "Cargo.toml"
      VERSION_PREFIX := ""
      BINTRAY_TEMPLATES_PATH := "packaging/bintray_descriptor_templates"
      BINTRAY_DESCRIPTORS_PATH := "packaging/"
      BINTRAY_DESCRIPTOR_NAME_FORMAT := "steganer_{tag}_bintray_descriptor.json" },
   fun _ => rfl⟩

/-- C6: idempotence of loading — two loads under environments whose
`GITHUB_TOKEN` variable is unchanged yield identical values for every
constant. -/
theorem C6_load_idempotent (env1 env2 : Env)
    (h : env1 "GITHUB_TOKEN" = env2 "GITHUB_TOKEN") :
    ci_constants env1 = ci_constants env2 := by
  simp [ci_constants, os_getenv, h]

/-- C6 witness: two concrete environments that agree on `GITHUB_TOKEN` but
differ elsewhere load to the same constants. -/
theorem C6_load_idempotent_witness :
    ci_constants (fun _ => some "tok")
      = ci_constants (fun n => if n = "HOME" then some "/root" else some "tok") :=
  C6_load_idempotent (fun _ => some "tok")
    (fun n => if n = "HOME" then some "/root" else some "tok") (by decide)

/-- C7: immutability — module load assigns each constant name exactly once
(the assignment names are pairwise distinct), and the module performs no
further operation, so looking any name up in the load trace yields the one
value it was given: the configuration is read-only for its lifetime. -/
theorem C7_constants_assigned_once (env : Env) :
    ((moduleAssignments env).map Prod.fst).Nodup
      ∧ ∀ p ∈ moduleAssignments env,
          (moduleAssignments env).lookup p.1 = some p.2 := by
  constructor
  · have h : (moduleAssignments env).map Prod.fst
        = [ "BRANCH_TO_MERGE_INTO", "BRANCH_TO_MERGE", "GITHUB_URL"
          , "GITHUB_REPO", "GITHUB_TOKEN", "GIT_USERNAME", "GIT_EMAIL"
          , "STEGANER_CONFIGURATION", "VERSION_PREFIX"
          , "BINTRAY_TEMPLATES_PATH", "BINTRAY_DESCRIPTORS_PATH"
          , "BINTRAY_DESCRIPTOR_NAME_FORMAT" ] := rfl
    rw [h]; decide
  · intro p hp
    simp only [moduleAssignments, List.mem_cons, List.not_mem_nil, or_false] at hp
    rcases hp with h | h | h | h | h | h | h | h | h | h | h | h <;> subst h <;> rfl

/-- C8: the module cannot fail — for every environment the load returns the
constants record, and the error branch of the load is unreachable. -/
theorem C8_load_cannot_fail (env : Env) :
    (∃ c : CiConstants, load_ci_constants env = Except.ok c)
      ∧ ∀ e : String, load_ci_constants env ≠ Except.error e := by
  refine ⟨⟨ci_constants env, rfl⟩, ?_⟩
  intro e h
  simp [load_ci_constants, os_getenv_exc] at h

/-- C9: when the `GITHUB_TOKEN` environment variable is unset, the token
constant is the absent value `none`, which is distinct from the empty
string `some ""`. -/
theorem C9_unset_token_is_absent (env : Env)
    (h : env "GITHUB_TOKEN" = none) :
    (ci_constants env).GITHUB_TOKEN = none
      ∧ (ci_constants env).GITHUB_TOKEN ≠ some "" := by
  simp [ci_constants, os_getenv, h]

/-- C9 witness: the concrete environment with every variable unset. -/
theorem C9_unset_token_is_absent_witness :
    (ci_constants fun _ => none).GITHUB_TOKEN = none
      ∧ (ci_constants fun _ => none).GITHUB_TOKEN ≠ some "" :=
  C9_unset_token_is_absent (fun _ => none) rfl

/-- C10: the version-string prefix constant equals the empty string in
every environment. -/
theorem C10_version_prefix_empty (env : Env) :
    (ci_constants env).VERSION_PREFIX = "" := rfl
